import Mathlib

/-!
Verification of the solar PV simulation model (src/solar_model.py).

The Python model is a chain of closed-form real-valued formulas; it is
embedded here over the real numbers: every numpy trigonometric call becomes
the corresponding `Real` function, `np.clip` becomes `min`/`max`, Python
`round` becomes Mathlib `round` (Python uses banker rounding, which differs
from `round` only at exact half-integer ties; no theorem below depends on a
tie), and the `for` loops of the annual sweep become `List` folds.
-/

open Real

noncomputable section

/-- Conversion from degrees to radians, as `np.radians`. -/
def np_radians (x : ℝ) : ℝ := x * (π / 180)

/-- Conversion from radians to degrees, as `np.degrees`. -/
def np_degrees (x : ℝ) : ℝ := x * (180 / π)

/-- Clamping to an interval, as `np.clip(x, lo, hi) = minimum(maximum(x, lo), hi)`. -/
def np_clip (x lo hi : ℝ) : ℝ := min hi (max lo x)

/-- Local time meridian, `round(longitude / 15) * 15` (solar_model.py line 21). -/
def local_time_meridian (longitude : ℝ) : ℝ := ((round (longitude / 15) : ℤ) : ℝ) * 15

/-- Output record of `calculate_geometry`. -/
structure Geometry where
  declination : ℝ
  hour_angle : ℝ
  solar_time : ℝ
  elevation : ℝ
  azimuth : ℝ

/-- Quadrant reflection of the azimuth (solar_model.py lines 157-182): when the
sun is on the far side, `phi0` is reflected to `180 - phi0` or `-180 - phi0`;
otherwise it is kept. Both hemisphere branches of the source are this map, the
northern one applied when the condition holds and the southern one when it
does not. -/
def quadrant_adjust (phi0 : ℝ) (far_side : Prop) [Decidable far_side] : ℝ :=
  if far_side then (if phi0 > 0 then 180 - phi0 else -180 - phi0) else phi0

/-- Solar geometry for a day and clock hour (solar_model.py lines 89-190).
The `np.inf` guard of the source (`check_val = inf if tan(delta) >= 0 else -inf`,
then `condition_met = cos(H) >= check_val`) is translated by its value:
when `tan(lat) = 0` the condition holds exactly when `tan(delta) < 0`. -/
def calculate_geometry (latitude longitude day hour : ℝ) : Geometry :=
  let delta_deg := 23.45 * Real.sin (2 * π / 365 * (day - 81))
  let delta_rad := np_radians delta_deg
  let B_rad := 2 * π / 364 * (day - 81)
  let E_min := 9.87 * Real.sin (2 * B_rad) - 7.53 * Real.cos B_rad - 1.5 * Real.sin B_rad
  let time_correction_min := 4 * (longitude - local_time_meridian longitude) + E_min
  let solar_time_hours := hour + time_correction_min / 60
  let H_deg := 15 * (12 - solar_time_hours)
  let H_rad := np_radians H_deg
  let lat_rad := np_radians latitude
  let sin_beta := Real.cos lat_rad * Real.cos delta_rad * Real.cos H_rad +
    Real.sin lat_rad * Real.sin delta_rad
  let beta_rad := Real.arcsin (np_clip sin_beta (-1) 1)
  let beta_deg := np_degrees beta_rad
  let phi_s_deg :=
    if Real.cos beta_rad = 0 then 0
    else
      let sin_phi_s := Real.cos delta_rad * Real.sin H_rad / Real.cos beta_rad
      let phi0 := np_degrees (Real.arcsin (np_clip sin_phi_s (-1) 1))
      let condition_met :=
        if Real.tan lat_rad = 0 then Real.tan delta_rad < 0
        else Real.cos H_rad ≥ Real.tan delta_rad / Real.tan lat_rad
      if latitude ≥ 0 then quadrant_adjust phi0 condition_met
      else quadrant_adjust phi0 (¬condition_met)
  ⟨delta_deg, H_deg, solar_time_hours, beta_deg, phi_s_deg⟩

/-- Output record of `calculate_irradiance`. -/
structure Irradiance where
  extraterrestrial : ℝ
  optical_depth : ℝ
  air_mass : ℝ
  dni : ℝ
  diffuse_factor : ℝ
  diffuse_horizontal : ℝ
  global_horizontal : ℝ

/-- Clear-sky irradiance components for a day and solar elevation
(solar_model.py lines 192-260). -/
def calculate_irradiance (day elevation_deg : ℝ) : Irradiance :=
  if elevation_deg ≤ 0 then ⟨0, 0, 0, 0, 0, 0, 0⟩
  else
    let beta_rad := np_radians elevation_deg
    let A := 1160 + 75 * Real.sin (2 * π / 365 * (day - 275))
    let k := 0.174 + 0.035 * Real.sin (2 * π / 365 * (day - 100))
    let sin_beta := Real.sin beta_rad
    let m := if sin_beta < 0.01 then 1 / 0.01 else 1 / sin_beta
    let Ib := A * Real.exp (-k * m)
    let C := 0.095 + 0.04 * Real.sin (2 * π / 365 * (day - 100))
    let Idh := C * Ib
    let Ibh := Ib * Real.sin beta_rad
    ⟨A, k, m, Ib, C, Idh, Ibh + Idh⟩

/-- Total incident irradiance on a tilted surface and the clamped cosine of the
angle of incidence (solar_model.py lines 262-304). Returns `(Ic, cos_theta)`. -/
def calculate_incident_irradiance (beta_deg phi_s_deg sigma_deg phi_c_deg Ib C rho : ℝ) :
    ℝ × ℝ :=
  let beta := np_radians beta_deg
  let phi_s := np_radians phi_s_deg
  let sigma := np_radians sigma_deg
  let phi_c := np_radians phi_c_deg
  let cos_theta := max 0 (Real.cos beta * Real.cos (phi_s - phi_c) * Real.sin sigma +
    Real.sin beta * Real.cos sigma)
  let Ibc := Ib * cos_theta
  let Idc := C * Ib * (1 + Real.cos sigma) / 2
  let Irc := rho * Ib * (Real.sin beta + C) * (1 - Real.cos sigma) / 2
  (Ibc + Idc + Irc, cos_theta)

/-- Incidence angle modifier (solar_model.py lines 329-335), with
`ALPHA_R = 0.17`. -/
def iam_of (cos_theta : ℝ) : ℝ :=
  if cos_theta ≤ 0 then 0
  else (1 - Real.exp (-cos_theta / 0.17)) / (1 - Real.exp (-1 / 0.17))

/-- Effective irradiance after angular loss, `S = Ic * IAM`
(solar_model.py line 338). -/
def effective_irradiance (Ic cos_theta : ℝ) : ℝ := Ic * iam_of cos_theta

/-- NOCT cell temperature model (solar_model.py lines 344-345), `NOCT = 45`. -/
def cell_temp (Ic cos_theta T_amb : ℝ) : ℝ :=
  T_amb + (45 - 20) / 0.8 * (effective_irradiance Ic cos_theta / 1000)

/-- Output record of `calculate_pv_performance`. -/
structure PVResult where
  P_out : ℝ
  P_at_25C : ℝ
  Loss_Angular : ℝ
  Loss_Thermal : ℝ
  T_cell : ℝ

/-- PV power output and losses (solar_model.py lines 306-365), with power
temperature coefficient `ALPHA_P = -0.0045`. -/
def calculate_pv_performance (Ic cos_theta T_amb efficiency : ℝ) : PVResult :=
  let S := effective_irradiance Ic cos_theta
  let T_cell := cell_temp Ic cos_theta T_amb
  let P_ref_25C := efficiency * S
  let P_out := P_ref_25C * (1 + (-0.0045) * (T_cell - 25))
  ⟨max 0 P_out, max 0 P_ref_25C, max 0 (Ic - S), P_ref_25C - P_out, T_cell⟩

/-- Annual average temperature by absolute-latitude band
(solar_model.py lines 48-53). -/
def T_avg_of (latitude : ℝ) : ℝ :=
  if |latitude| < 23.45 then 27 - 0.15 * |latitude|
  else if |latitude| < 50 then 30 - 0.4 * |latitude|
  else 20 - 0.3 * |latitude|

/-- Seasonal temperature amplitude by absolute-latitude band
(solar_model.py lines 57-62); note its bands are 23.45 and 66.5 degrees. -/
def delta_T_seasonal_of (latitude : ℝ) : ℝ :=
  if |latitude| < 23.45 then 2 + 0.15 * |latitude|
  else if |latitude| < 66.5 then 5 + 0.3 * |latitude|
  else 20

/-- Seasonal peak day offset by hemisphere (solar_model.py lines 69-72). -/
def day_offset_of (latitude : ℝ) : ℝ := if latitude < 0 then 15 else 195

/-- Sinusoidal ambient temperature model (solar_model.py lines 30-87). -/
def calculate_ambient_temperature (latitude day hour : ℝ) : ℝ :=
  let T_seasonal := T_avg_of latitude +
    delta_T_seasonal_of latitude * Real.cos (2 * π * (day - day_offset_of latitude) / 365)
  let T_diurnal_variation := -10 * Real.cos (2 * π * (hour - 3) / 24)
  np_clip (T_seasonal + T_diurnal_variation) (-50) 55

/-- Rotated panel normal of the polar and horizontal-axis trackers exactly as
computed inside `generate_annual_profile` (solar_model.py lines 624-697 and
736-769): axis vector `k` from the axis tilt and azimuth, noon normal `n0`
from the noon panel azimuth with tilt `pi/2 - axis_tilt`, then
`n_rot_x = (k_y n0_z - k_z n0_y) sin rho`, `n_rot_y = n0_y cos rho`,
`n_rot_z = n0_z cos rho`. -/
def trackerRotatedNormal (axis_tilt_deg axis_az_deg panel_az_deg rho_rad : ℝ) : ℝ × ℝ × ℝ :=
  let az_rad := np_radians axis_az_deg
  let tilt_rad := np_radians axis_tilt_deg
  let k_y := Real.cos tilt_rad * Real.cos az_rad
  let k_z := Real.sin tilt_rad
  let n0_az_rad := np_radians panel_az_deg
  let n0_tilt_rad := π / 2 - tilt_rad
  let n0_y := Real.cos n0_tilt_rad * Real.cos n0_az_rad
  let n0_z := Real.sin n0_tilt_rad
  let v_cross_x := k_y * n0_z - k_z * n0_y
  (v_cross_x * Real.sin rho_rad, n0_y * Real.cos rho_rad, n0_z * Real.cos rho_rad)

/-- Restricted Rodrigues rotation from the words of the spec (section 4.5):
`n_rot = n0 cos rho + (k x n0) sin rho`, computed component-wise with the full
cross product, for the same `k` and `n0` construction as the source. -/
def rodriguesRestricted (axis_tilt_deg axis_az_deg panel_az_deg rho_rad : ℝ) : ℝ × ℝ × ℝ :=
  let az_rad := np_radians axis_az_deg
  let tilt_rad := np_radians axis_tilt_deg
  let k_x := Real.cos tilt_rad * Real.sin az_rad
  let k_y := Real.cos tilt_rad * Real.cos az_rad
  let k_z := Real.sin tilt_rad
  let n0_az_rad := np_radians panel_az_deg
  let n0_tilt_rad := π / 2 - tilt_rad
  let n0_x := Real.cos n0_tilt_rad * Real.sin n0_az_rad
  let n0_y := Real.cos n0_tilt_rad * Real.cos n0_az_rad
  let n0_z := Real.sin n0_tilt_rad
  (n0_x * Real.cos rho_rad + (k_y * n0_z - k_z * n0_y) * Real.sin rho_rad,
   n0_y * Real.cos rho_rad + (k_z * n0_x - k_x * n0_z) * Real.sin rho_rad,
   n0_z * Real.cos rho_rad + (k_x * n0_y - k_y * n0_x) * Real.sin rho_rad)

/-- Per-time-step incident irradiance of the 1-Axis Azimuth tracking mode as
computed in `generate_annual_profile` (solar_model.py lines 534-538): panel
azimuth follows the sun azimuth, panel tilt is `optimal_tilt` when supplied
and `abs(latitude)` otherwise. -/
def step1AxisAzIc (latitude longitude : ℝ) (optimal_tilt : Option ℝ) (day hour : ℝ) : ℝ :=
  let geom := calculate_geometry latitude longitude day hour
  let irrad := calculate_irradiance day geom.elevation
  let tilt_1axis_az := optimal_tilt.getD |latitude|
  (calculate_incident_irradiance geom.elevation geom.azimuth tilt_1axis_az geom.azimuth
    irrad.dni irrad.diffuse_factor 0.2).1

/-- Per-time-step incident irradiance of the 2-Axis tracking mode as computed
inline in `generate_annual_profile` (solar_model.py lines 575-589):
`Ib + C Ib (1 + sin beta)/2 + 0.2 Ib (sin beta + C)(1 - sin beta)/2`. -/
def step2AxisIc (latitude longitude day hour : ℝ) : ℝ :=
  let geom := calculate_geometry latitude longitude day hour
  let irrad := calculate_irradiance day geom.elevation
  let sin_beta := Real.sin (np_radians geom.elevation)
  irrad.dni + irrad.diffuse_factor * irrad.dni * (1 + sin_beta) / 2 +
    0.2 * irrad.dni * (sin_beta + irrad.diffuse_factor) * (1 - sin_beta) / 2

/-- The day-hour iteration grid of the shipped `generate_annual_profile`
(solar_model.py lines 504-505): `for day in range(1, 366): for hour in range(24)`,
with no time-step parameter. -/
def profileGrid : List (ℕ × ℕ) :=
  (List.range 365).flatMap fun d => (List.range 24).map fun h => (d + 1, h)

/-- One precomputed daylight sample of `calculate_optimal_tilt`
(solar_model.py lines 380-395). -/
structure DaylightPoint where
  beta : ℝ
  phi_s : ℝ
  Ib : ℝ
  C : ℝ
  T_amb : ℝ

/-- The precomputed daylight dataset of `calculate_optimal_tilt`
(solar_model.py lines 380-395): all (day, hour) pairs with positive solar
elevation, with their geometry, irradiance and ambient temperature. -/
def daylightData (latitude longitude : ℝ) : List DaylightPoint :=
  (List.range 365).flatMap fun d =>
    (List.range 24).filterMap fun h =>
      let geom := calculate_geometry latitude longitude (d + 1 : ℕ) (h : ℕ)
      if geom.elevation ≤ 0 then none
      else
        let irrad := calculate_irradiance (d + 1 : ℕ) geom.elevation
        some ⟨geom.elevation, geom.azimuth, irrad.dni, irrad.diffuse_factor,
          calculate_ambient_temperature latitude (d + 1 : ℕ) (h : ℕ)⟩

/-- Fixed panel azimuth used by the optimal tilt search
(solar_model.py lines 409, 424, 442): equator facing. -/
def panel_azimuth_for (latitude : ℝ) : ℝ := if latitude < 0 then 0 else 180

/-- Incident irradiance of one daylight sample at a candidate tilt
(solar_model.py lines 426-431). -/
def point_incident (latitude tilt : ℝ) (p : DaylightPoint) : ℝ :=
  (calculate_incident_irradiance p.beta p.phi_s tilt (panel_azimuth_for latitude)
    p.Ib p.C 0.2).1

/-- Electrical output of one daylight sample at a candidate tilt
(solar_model.py lines 411-420). -/
def point_power (latitude efficiency tilt : ℝ) (p : DaylightPoint) : ℝ :=
  let r := calculate_incident_irradiance p.beta p.phi_s tilt (panel_azimuth_for latitude)
    p.Ib p.C 0.2
  (calculate_pv_performance r.1 r.2 p.T_amb efficiency).P_out

/-- Cumulative incident irradiance criterion of the tilt search, in kWh/m2
(solar_model.py lines 422-434). -/
def geom_yield (latitude : ℝ) (data : List DaylightPoint) (tilt : ℝ) : ℝ :=
  (data.map fun p => point_incident latitude tilt p / 1000).sum

/-- Cumulative electrical yield criterion of the tilt search, in kWh/m2
(solar_model.py lines 406-420 and 440-453). -/
def elec_yield (latitude efficiency : ℝ) (data : List DaylightPoint) (tilt : ℝ) : ℝ :=
  (data.map fun p => point_power latitude efficiency tilt p / 1000).sum

/-- The optimization value of one candidate tilt, chosen by the
`optimize_electrical` flag (solar_model.py lines 405-434). -/
def sel_value (latitude efficiency : ℝ) (optimize_electrical : Bool)
    (data : List DaylightPoint) (tilt : ℝ) : ℝ :=
  if optimize_electrical then elec_yield latitude efficiency data tilt
  else geom_yield latitude data tilt

/-- The integer tilt candidates swept by `calculate_optimal_tilt`
(solar_model.py lines 400-405): `range(max(0, int(|lat|) - 5), int(|lat|) + 6)`.
Python `int` truncates toward zero, which is the floor for the nonnegative
`abs(latitude)`. -/
def tiltCandidates (latitude : ℝ) : List ℤ :=
  let start := max 0 (⌊|latitude|⌋ - 5)
  let stop := ⌊|latitude|⌋ + 6
  (List.range (stop - start).toNat).map fun i : ℕ => start + (i : ℤ)

/-- Generic strict-improvement argmax loop: the accumulator pattern
`if total_value > max_optimization_value` of solar_model.py lines 436-438. -/
def bestFold (f : ℤ → ℝ) (l : List ℤ) (init : ℤ × ℝ) : ℤ × ℝ :=
  l.foldl (fun (acc : ℤ × ℝ) (t : ℤ) => if f t > acc.2 then (t, f t) else acc) init

/-- The selection loop of `calculate_optimal_tilt` (solar_model.py lines
397-438): starts from `best_tilt = 0`, `max_optimization_value = 0` and keeps
the first candidate that strictly improves the running maximum. -/
def optimalTiltFold (latitude efficiency : ℝ) (optimize_electrical : Bool)
    (data : List DaylightPoint) : ℤ × ℝ :=
  bestFold (fun t => sel_value latitude efficiency optimize_electrical data (t : ℝ))
    (tiltCandidates latitude) (0, 0)

/-- Optimal tilt search (solar_model.py lines 367-455): returns the winning
tilt together with the annual electrical yield recomputed at that tilt
(lines 440-455), regardless of the search criterion. -/
def calculate_optimal_tilt (latitude longitude efficiency : ℝ)
    (optimize_electrical : Bool) : ℤ × ℝ :=
  let data := daylightData latitude longitude
  let best := (optimalTiltFold latitude efficiency optimize_electrical data).1
  (best, elec_yield latitude efficiency data (best : ℝ))

/-- The `sin_beta` expression of `calculate_geometry` (solar_model.py lines
104-127) specialized to latitude 87, longitude 0, day 255, hour 0; named so
that numeric bounds can be stated about this concrete profile time step. -/
def sinBeta87 : ℝ :=
  Real.cos (np_radians 87) *
      Real.cos (np_radians (23.45 * Real.sin (2 * π / 365 * (255 - 81)))) *
      Real.cos (np_radians (15 * (12 - (0 + (4 * (0 - local_time_meridian 0) +
        (9.87 * Real.sin (2 * (2 * π / 364 * (255 - 81))) -
          7.53 * Real.cos (2 * π / 364 * (255 - 81)) -
          1.5 * Real.sin (2 * π / 364 * (255 - 81)))) / 60)))) +
    Real.sin (np_radians 87) *
      Real.sin (np_radians (23.45 * Real.sin (2 * π / 365 * (255 - 81))))

end

/-! ## Helper lemmas -/

lemma np_radians_np_degrees (x : ℝ) : np_radians (np_degrees x) = x := by
  unfold np_radians np_degrees
  have h := Real.pi_ne_zero
  field_simp

lemma np_clip_of_mem {x lo hi : ℝ} (h1 : lo ≤ x) (h2 : x ≤ hi) : np_clip x lo hi = x := by
  unfold np_clip
  rw [max_eq_right h1, min_eq_right h2]

lemma np_clip_le_np_clip {x y lo hi : ℝ} (h : x ≤ y) :
    np_clip x lo hi ≤ np_clip y lo hi :=
  min_le_min le_rfl (max_le_max le_rfl h)

lemma np_clip_mem {x lo hi : ℝ} (h : lo ≤ hi) :
    lo ≤ np_clip x lo hi ∧ np_clip x lo hi ≤ hi :=
  ⟨le_min h (le_max_left _ _), min_le_left _ _⟩

lemma iam_of_one : iam_of 1 = 1 := by
  unfold iam_of
  rw [if_neg (by norm_num)]
  have h : Real.exp (-1 / 0.17) < 1 := by
    rw [Real.exp_lt_one_iff]
    norm_num
  have h2 : (1 : ℝ) - Real.exp (-1 / 0.17) ≠ 0 := by linarith
  rw [show -(1 : ℝ) / 0.17 = -1 / 0.17 by norm_num]
  exact div_self h2

/-! ## Claim 1: night yields zero -/

/-- Claim C1: for any day and any elevation at or below the horizon,
`calculate_irradiance` returns all seven components zero; with the resulting
zero DNI and zero diffuse factor, `calculate_incident_irradiance` returns
zero incident irradiance for every panel orientation, and
`calculate_pv_performance` on zero incident irradiance returns zero power. -/
theorem claim1_night_zero (day e : ℝ) (h : e ≤ 0) :
    calculate_irradiance day e = ⟨0, 0, 0, 0, 0, 0, 0⟩ ∧
    (∀ phi_s sigma phi_c : ℝ,
      (calculate_incident_irradiance e phi_s sigma phi_c 0 0 0.2).1 = 0) ∧
    (∀ ct T_amb eff : ℝ, (calculate_pv_performance 0 ct T_amb eff).P_out = 0) := by
  refine ⟨?_, ?_, ?_⟩
  · unfold calculate_irradiance
    rw [if_pos h]
  · intro phi_s sigma phi_c
    unfold calculate_incident_irradiance
    dsimp only
    ring
  · intro ct T_amb eff
    unfold calculate_pv_performance effective_irradiance
    dsimp only
    rw [zero_mul, mul_zero, zero_mul]
    exact max_eq_left le_rfl

/-- Witness for claim C1 at day 100, elevation -1. -/
theorem claim1_night_zero_witness :
    ((-1 : ℝ) ≤ 0) ∧
    (calculate_irradiance 100 (-1) = ⟨0, 0, 0, 0, 0, 0, 0⟩ ∧
      (∀ phi_s sigma phi_c : ℝ,
        (calculate_incident_irradiance (-1) phi_s sigma phi_c 0 0 0.2).1 = 0) ∧
      (∀ ct T_amb eff : ℝ, (calculate_pv_performance 0 ct T_amb eff).P_out = 0)) :=
  ⟨by norm_num, claim1_night_zero 100 (-1) (by norm_num)⟩

/-! ## Claim 3: incident irradiance nonnegativity -/

/-- Counterexample to claim C3 as stated: at elevation -90 (included in the
claimed range [-90, 90]), panel tilt 90, DNI 1 and diffuse factor 0, the
ground-reflected term makes the total incident irradiance negative. -/
theorem claim3_counterexample :
    (calculate_incident_irradiance (-90) 0 90 0 1 0 0.2).1 < 0 := by
  unfold calculate_incident_irradiance np_radians
  dsimp only
  rw [show (-90 : ℝ) * (π / 180) = -(π / 2) by ring,
    show (90 : ℝ) * (π / 180) = π / 2 by ring,
    show (0 : ℝ) * (π / 180) = 0 by ring]
  simp [Real.cos_pi_div_two, Real.sin_pi_div_two]
  norm_num

/-- Claim C3 amended: for elevations in [0, 90] (not [-90, 90]), tilt in
[0, 90], nonnegative DNI and nonnegative diffuse factor, the total incident
irradiance with albedo 0.2 is nonnegative. -/
theorem claim3_amended (beta phi_s sigma phi_c Ib C : ℝ)
    (hb0 : 0 ≤ beta) (hb1 : beta ≤ 90) (hs0 : 0 ≤ sigma) (hs1 : sigma ≤ 90)
    (hIb : 0 ≤ Ib) (hC : 0 ≤ C) :
    0 ≤ (calculate_incident_irradiance beta phi_s sigma phi_c Ib C 0.2).1 := by
  unfold calculate_incident_irradiance
  dsimp only
  have hπ := Real.pi_pos
  have hsin : 0 ≤ Real.sin (np_radians beta) := by
    apply Real.sin_nonneg_of_nonneg_of_le_pi
    · unfold np_radians
      positivity
    · unfold np_radians
      nlinarith
  have hcos1 : Real.cos (np_radians sigma) ≤ 1 := Real.cos_le_one _
  have hcosm : (-1 : ℝ) ≤ Real.cos (np_radians sigma) := Real.neg_one_le_cos _
  have h1 : 0 ≤ Ib * max 0 (Real.cos (np_radians beta) *
      Real.cos (np_radians phi_s - np_radians phi_c) * Real.sin (np_radians sigma) +
      Real.sin (np_radians beta) * Real.cos (np_radians sigma)) :=
    mul_nonneg hIb (le_max_left _ _)
  have h2 : 0 ≤ C * Ib * (1 + Real.cos (np_radians sigma)) / 2 := by
    apply div_nonneg _ (by norm_num)
    exact mul_nonneg (mul_nonneg hC hIb) (by linarith)
  have h3 : 0 ≤ 0.2 * Ib * (Real.sin (np_radians beta) + C) *
      (1 - Real.cos (np_radians sigma)) / 2 := by
    apply div_nonneg _ (by norm_num)
    exact mul_nonneg (mul_nonneg (mul_nonneg (by norm_num) hIb) (by linarith)) (by linarith)
  linarith

/-- Witness for the amended claim C3 at elevation 90, tilt 45, DNI 1,
diffuse factor 1. -/
theorem claim3_amended_witness :
    ((0 : ℝ) ≤ 90) ∧ 0 ≤ (calculate_incident_irradiance 90 0 45 0 1 1 0.2).1 :=
  ⟨by norm_num, claim3_amended 90 0 45 0 1 1 (by norm_num) (by norm_num) (by norm_num)
    (by norm_num) (by norm_num) (by norm_num)⟩

/-! ## Claim 7: thermal loss sign -/

/-- Claim C7: `Loss_Thermal` equals `P_ref - P_out` before flooring, which is
`0.0045 * P_ref * (T_cell - 25)` with `P_ref = efficiency * S`; given
`P_ref > 0` it is negative exactly when the cell is cooler than 25 C; and the
returned `P_out` and `P_at_25C` are floored at zero. -/
theorem claim7_thermal_loss (Ic ct T_amb eff : ℝ) :
    (calculate_pv_performance Ic ct T_amb eff).Loss_Thermal =
      0.0045 * (eff * effective_irradiance Ic ct) * (cell_temp Ic ct T_amb - 25) ∧
    (0 < eff * effective_irradiance Ic ct →
      ((calculate_pv_performance Ic ct T_amb eff).Loss_Thermal < 0 ↔
        cell_temp Ic ct T_amb < 25)) ∧
    0 ≤ (calculate_pv_performance Ic ct T_amb eff).P_out ∧
    0 ≤ (calculate_pv_performance Ic ct T_amb eff).P_at_25C := by
  unfold calculate_pv_performance
  dsimp only
  refine ⟨by ring, ?_, le_max_left _ _, le_max_left _ _⟩
  intro hpos
  constructor
  · intro h
    nlinarith
  · intro h
    nlinarith

/-- Witness for claim C7: incident irradiance 100 at normal incidence and
ambient 0 C gives a cell below 25 C, hence a negative thermal loss. -/
theorem claim7_thermal_loss_witness :
    (0 : ℝ) < 0.14 * effective_irradiance 100 1 ∧
    ((calculate_pv_performance 100 1 0 0.14).Loss_Thermal < 0 ↔
      cell_temp 100 1 0 < 25) := by
  have hS : effective_irradiance 100 1 = 100 := by
    unfold effective_irradiance
    rw [iam_of_one, mul_one]
  have h : (0 : ℝ) < 0.14 * effective_irradiance 100 1 := by
    rw [hS]
    norm_num
  exact ⟨h, (claim7_thermal_loss 100 1 0 0.14).2.1 h⟩

/-! ## Claim 10: air mass and DNI bounds for daytime -/

/-- Claim C10: for any day and any strictly positive elevation, the air mass
is between 1 and 100 and the DNI is strictly positive and strictly below the
apparent extraterrestrial flux, which itself never exceeds 1235 W/m2. -/
theorem claim10_airmass_dni (day e : ℝ) (h : 0 < e) :
    1 ≤ (calculate_irradiance day e).air_mass ∧
    (calculate_irradiance day e).air_mass ≤ 100 ∧
    0 < (calculate_irradiance day e).dni ∧
    (calculate_irradiance day e).dni < (calculate_irradiance day e).extraterrestrial ∧
    (calculate_irradiance day e).extraterrestrial ≤ 1235 ∧
    (calculate_irradiance day e).dni < 1235 := by
  unfold calculate_irradiance
  rw [if_neg (not_le.mpr h)]
  dsimp only
  have hA1 : (-1 : ℝ) ≤ Real.sin (2 * π / 365 * (day - 275)) := Real.neg_one_le_sin _
  have hA2 : Real.sin (2 * π / 365 * (day - 275)) ≤ 1 := Real.sin_le_one _
  have hk1 : (-1 : ℝ) ≤ Real.sin (2 * π / 365 * (day - 100)) := Real.neg_one_le_sin _
  have hApos : (0 : ℝ) < 1160 + 75 * Real.sin (2 * π / 365 * (day - 275)) := by nlinarith
  have hkpos : (0 : ℝ) < 0.174 + 0.035 * Real.sin (2 * π / 365 * (day - 100)) := by nlinarith
  have hs1 : Real.sin (np_radians e) ≤ 1 := Real.sin_le_one _
  have hm1 : 1 ≤ (if Real.sin (np_radians e) < 0.01 then 1 / 0.01 else 1 / Real.sin (np_radians e)) := by
    split_ifs with hm
    · norm_num
    · rw [le_div_iff (by linarith)]
      linarith
  have hm2 : (if Real.sin (np_radians e) < 0.01 then 1 / 0.01 else 1 / Real.sin (np_radians e)) ≤ 100 := by
    split_ifs with hm
    · norm_num
    · have hsp : (0.01 : ℝ) ≤ Real.sin (np_radians e) := le_of_not_lt hm
      rw [div_le_iff (by linarith)]
      nlinarith
  have hexp : Real.exp (-(0.174 + 0.035 * Real.sin (2 * π / 365 * (day - 100))) *
      (if Real.sin (np_radians e) < 0.01 then 1 / 0.01 else 1 / Real.sin (np_radians e))) < 1 := by
    rw [Real.exp_lt_one_iff]
    have : (0 : ℝ) < (0.174 + 0.035 * Real.sin (2 * π / 365 * (day - 100))) *
        (if Real.sin (np_radians e) < 0.01 then 1 / 0.01 else 1 / Real.sin (np_radians e)) :=
      mul_pos hkpos (by linarith)
    linarith
  have hexppos := Real.exp_pos (-(0.174 + 0.035 * Real.sin (2 * π / 365 * (day - 100))) *
    (if Real.sin (np_radians e) < 0.01 then 1 / 0.01 else 1 / Real.sin (np_radians e)))
  refine ⟨hm1, hm2, mul_pos hApos hexppos, ?_, by nlinarith, ?_⟩
  · nlinarith
  · nlinarith

/-! ## Claim 9: azimuth stays in [-180, 180] -/

lemma np_degrees_arcsin_ge (x : ℝ) : -90 ≤ np_degrees (Real.arcsin x) := by
  unfold np_degrees
  have h1 := Real.neg_pi_div_two_le_arcsin x
  have hπ := Real.pi_pos
  have hkey : (-(π / 2)) * (180 / π) = -90 := by
    field_simp
    ring
  calc (-90 : ℝ) = (-(π / 2)) * (180 / π) := hkey.symm
    _ ≤ Real.arcsin x * (180 / π) :=
        mul_le_mul_of_nonneg_right h1 (by positivity)

lemma np_degrees_arcsin_le (x : ℝ) : np_degrees (Real.arcsin x) ≤ 90 := by
  unfold np_degrees
  have h1 := Real.arcsin_le_pi_div_two x
  have hπ := Real.pi_pos
  have hkey : (π / 2) * (180 / π) = 90 := by
    field_simp
    ring
  calc Real.arcsin x * (180 / π) ≤ (π / 2) * (180 / π) :=
        mul_le_mul_of_nonneg_right h1 (by positivity)
    _ = 90 := hkey

lemma quadrant_adjust_range {phi0 : ℝ} (c : Prop) [Decidable c]
    (h1 : -90 ≤ phi0) (h2 : phi0 ≤ 90) :
    -180 ≤ quadrant_adjust phi0 c ∧ quadrant_adjust phi0 c ≤ 180 := by
  unfold quadrant_adjust
  split_ifs <;> constructor <;> linarith

/-- Claim C9: for every latitude, longitude, day and hour, the azimuth
returned by `calculate_geometry` lies in [-180, 180]: the arcsin lies in
[-90, 90] and the quadrant reflection maps into [-180, 180], while the
zenith guard returns 0. -/
theorem claim9_azimuth_range (lat lon day hour : ℝ) :
    -180 ≤ (calculate_geometry lat lon day hour).azimuth ∧
    (calculate_geometry lat lon day hour).azimuth ≤ 180 := by
  unfold calculate_geometry
  dsimp only
  split_ifs with h0
  · constructor <;> norm_num
  all_goals
    exact quadrant_adjust_range _ (np_degrees_arcsin_ge _) (np_degrees_arcsin_le _)

/-! ## Claim 4: tracker rotation vs restricted Rodrigues formula -/

/-- Counterexample to claim C4 as stated: with a horizontal axis and an
east-facing noon panel azimuth of 90 degrees (axis azimuth 270, as built for a
caller-supplied `fixed_azimuth`), at rotation angle pi/2 the source's
component-wise rotation differs from the restricted Rodrigues formula: the
y components are 0 and 1 respectively. -/
theorem claim4_counterexample :
    trackerRotatedNormal 0 270 90 (π / 2) ≠ rodriguesRestricted 0 270 90 (π / 2) := by
  intro hEq
  have h2 := congrArg (fun t : ℝ × ℝ × ℝ => t.2.1) hEq
  unfold trackerRotatedNormal rodriguesRestricted np_radians at h2
  dsimp only at h2
  rw [show (270 : ℝ) * (π / 180) = π + π / 2 by ring,
    show (90 : ℝ) * (π / 180) = π / 2 by ring,
    show (0 : ℝ) * (π / 180) = 0 by ring] at h2
  simp [Real.sin_pi_div_two, Real.cos_pi_div_two, Real.sin_add, Real.cos_add] at h2

/-- Claim C4 amended: the source's component-wise rotation equals the
restricted Rodrigues formula whenever the noon panel azimuth and the axis
azimuth point due north or south (sine of each azimuth zero), which covers the
default configuration; for a caller-supplied east- or west-leaning
`fixed_azimuth` the dropped cross terms make them differ. -/
theorem claim4_amended (axis_tilt axis_az panel_az rho : ℝ)
    (hp : Real.sin (np_radians panel_az) = 0)
    (ha : Real.sin (np_radians axis_az) = 0) :
    trackerRotatedNormal axis_tilt axis_az panel_az rho =
      rodriguesRestricted axis_tilt axis_az panel_az rho := by
  unfold trackerRotatedNormal rodriguesRestricted
  dsimp only
  rw [Prod.ext_iff, Prod.ext_iff]
  refine ⟨?_, ?_, ?_⟩ <;> dsimp only <;> simp only [hp, ha] <;> ring

/-- Witness for the amended claim C4: the default south-facing configuration
(noon panel azimuth 0, axis azimuth 180) with axis tilt 30 at rotation 1. -/
theorem claim4_amended_witness :
    Real.sin (np_radians 0) = 0 ∧ Real.sin (np_radians 180) = 0 ∧
    trackerRotatedNormal 30 180 0 1 = rodriguesRestricted 30 180 0 1 := by
  have h0 : Real.sin (np_radians 0) = 0 := by
    unfold np_radians
    rw [zero_mul, Real.sin_zero]
  have h180 : Real.sin (np_radians 180) = 0 := by
    unfold np_radians
    rw [show (180 : ℝ) * (π / 180) = π by ring, Real.sin_pi]
  exact ⟨h0, h180, claim4_amended 30 180 0 1 h0 h180⟩

/-! ## Claim 8: ambient temperature model -/

lemma delta_T_seasonal_nonneg (lat : ℝ) : 0 ≤ delta_T_seasonal_of lat := by
  unfold delta_T_seasonal_of
  have := abs_nonneg lat
  split_ifs <;> linarith

/-- Counterexample to claim C8 as stated: if the seasonal amplitude had a
single linear formula on the claimed polar band (|latitude| at least 50), the
midpoint identity T(50) + T(70) = 2 T(60) would hold at the common seasonal
and diurnal peak (day 195, hour 15, northern hemisphere); the source values
are 35 + 29 and 2 * 35, because the amplitude bands are actually 23.45 and
66.5 degrees. -/
theorem claim8_counterexample :
    calculate_ambient_temperature 50 195 15 + calculate_ambient_temperature 70 195 15 ≠
      2 * calculate_ambient_temperature 60 195 15 := by
  have hday : ∀ L : ℝ, ¬(L < 0) → day_offset_of L = 195 := by
    intro L hL
    unfold day_offset_of
    rw [if_neg hL]
  have hval : ∀ L : ℝ, ¬(L < 0) →
      calculate_ambient_temperature L 195 15 =
        np_clip (T_avg_of L + delta_T_seasonal_of L + 10) (-50) 55 := by
    intro L hL
    unfold calculate_ambient_temperature
    rw [hday L hL]
    rw [show 2 * π * ((195 : ℝ) - 195) / 365 = 0 by ring, Real.cos_zero]
    rw [show 2 * π * ((15 : ℝ) - 3) / 24 = π by ring, Real.cos_pi]
    ring_nf
  rw [hval 50 (by norm_num), hval 70 (by norm_num), hval 60 (by norm_num)]
  have h50 : T_avg_of 50 + delta_T_seasonal_of 50 + 10 = 35 := by
    unfold T_avg_of delta_T_seasonal_of
    rw [show |(50 : ℝ)| = 50 by norm_num]
    norm_num
  have h60 : T_avg_of 60 + delta_T_seasonal_of 60 + 10 = 35 := by
    unfold T_avg_of delta_T_seasonal_of
    rw [show |(60 : ℝ)| = 60 by norm_num]
    norm_num
  have h70 : T_avg_of 70 + delta_T_seasonal_of 70 + 10 = 29 := by
    unfold T_avg_of delta_T_seasonal_of
    rw [show |(70 : ℝ)| = 70 by norm_num]
    norm_num
  rw [h50, h60, h70]
  unfold np_clip
  norm_num

/-- Claim C8 amended: `calculate_ambient_temperature` is piecewise in
|latitude| with mean-temperature bands below 23.45, below 50 and at least 50,
each linear, but with seasonal-amplitude bands below 23.45, below 66.5 and at
least 66.5 (constant 20 on the last); the diurnal term is a 10 C cosine with
trough at hour 3 and peak at hour 15; the seasonal peak day is 15 for
southern and 195 for northern latitudes; and the result is always within
[-50, 55]. -/
theorem claim8_amended :
    (∀ lat : ℝ, |lat| < 23.45 →
      T_avg_of lat = 27 - 0.15 * |lat| ∧ delta_T_seasonal_of lat = 2 + 0.15 * |lat|) ∧
    (∀ lat : ℝ, 23.45 ≤ |lat| → |lat| < 50 → T_avg_of lat = 30 - 0.4 * |lat|) ∧
    (∀ lat : ℝ, 50 ≤ |lat| → T_avg_of lat = 20 - 0.3 * |lat|) ∧
    (∀ lat : ℝ, 23.45 ≤ |lat| → |lat| < 66.5 →
      delta_T_seasonal_of lat = 5 + 0.3 * |lat|) ∧
    (∀ lat : ℝ, 66.5 ≤ |lat| → delta_T_seasonal_of lat = 20) ∧
    (∀ lat day hour : ℝ, -50 ≤ calculate_ambient_temperature lat day hour ∧
      calculate_ambient_temperature lat day hour ≤ 55) ∧
    (∀ lat day hour : ℝ, calculate_ambient_temperature lat day 3 ≤
        calculate_ambient_temperature lat day hour ∧
      calculate_ambient_temperature lat day hour ≤
        calculate_ambient_temperature lat day 15) ∧
    (∀ lat day hour : ℝ, lat < 0 → calculate_ambient_temperature lat day hour ≤
      calculate_ambient_temperature lat 15 hour) ∧
    (∀ lat day hour : ℝ, 0 ≤ lat → calculate_ambient_temperature lat day hour ≤
      calculate_ambient_temperature lat 195 hour) := by
  refine ⟨?_, ?_, ?_, ?_, ?_, ?_, ?_, ?_, ?_⟩
  · intro lat h
    unfold T_avg_of delta_T_seasonal_of
    rw [if_pos h, if_pos h]
    exact ⟨rfl, rfl⟩
  · intro lat h1 h2
    unfold T_avg_of
    rw [if_neg (not_lt.mpr h1), if_pos h2]
  · intro lat h1
    unfold T_avg_of
    rw [if_neg (by linarith), if_neg (not_lt.mpr (by linarith))]
  · intro lat h1 h2
    unfold delta_T_seasonal_of
    rw [if_neg (not_lt.mpr h1), if_pos h2]
  · intro lat h1
    unfold delta_T_seasonal_of
    rw [if_neg (by linarith), if_neg (not_lt.mpr (by linarith))]
  · intro lat day hour
    unfold calculate_ambient_temperature
    exact np_clip_mem (by norm_num)
  · intro lat day hour
    have hc1 : Real.cos (2 * π * ((3 : ℝ) - 3) / 24) = 1 := by
      rw [show 2 * π * ((3 : ℝ) - 3) / 24 = 0 by ring, Real.cos_zero]
    have hc2 : Real.cos (2 * π * ((15 : ℝ) - 3) / 24) = -1 := by
      rw [show 2 * π * ((15 : ℝ) - 3) / 24 = π by ring, Real.cos_pi]
    constructor
    · unfold calculate_ambient_temperature
      apply np_clip_le_np_clip
      have := Real.neg_one_le_cos (2 * π * (hour - 3) / 24)
      rw [hc1]
      nlinarith [Real.cos_le_one (2 * π * (hour - 3) / 24)]
    · unfold calculate_ambient_temperature
      apply np_clip_le_np_clip
      rw [hc2]
      nlinarith [Real.neg_one_le_cos (2 * π * (hour - 3) / 24)]
  · intro lat day hour hlat
    unfold calculate_ambient_temperature day_offset_of
    rw [if_pos hlat]
    apply np_clip_le_np_clip
    have h1 : Real.cos (2 * π * ((15 : ℝ) - 15) / 365) = 1 := by
      rw [show 2 * π * ((15 : ℝ) - 15) / 365 = 0 by ring, Real.cos_zero]
    rw [h1]
    nlinarith [Real.cos_le_one (2 * π * (day - 15) / 365),
      delta_T_seasonal_nonneg lat]
  · intro lat day hour hlat
    unfold calculate_ambient_temperature day_offset_of
    rw [if_neg (not_lt.mpr hlat)]
    apply np_clip_le_np_clip
    have h1 : Real.cos (2 * π * ((195 : ℝ) - 195) / 365) = 1 := by
      rw [show 2 * π * ((195 : ℝ) - 195) / 365 = 0 by ring, Real.cos_zero]
    rw [h1]
    nlinarith [Real.cos_le_one (2 * π * (day - 195) / 365),
      delta_T_seasonal_nonneg lat]

/-- Witness for the amended claim C8: tropical band at latitude 10, and the
southern seasonal peak at latitude -10. -/
theorem claim8_amended_witness :
    (|(10 : ℝ)| < 23.45 ∧
      (T_avg_of 10 = 27 - 0.15 * |(10 : ℝ)| ∧
        delta_T_seasonal_of 10 = 2 + 0.15 * |(10 : ℝ)|)) ∧
    ((-10 : ℝ) < 0 ∧
      calculate_ambient_temperature (-10) 100 5 ≤
        calculate_ambient_temperature (-10) 15 5) :=
  ⟨⟨by norm_num, claim8_amended.1 10 (by norm_num)⟩,
    ⟨by norm_num, claim8_amended.2.2.2.2.2.2.2.1 (-10) 100 5 (by norm_num)⟩⟩

/-! ## Claim 5: iteration grid of the shipped annual profile -/

/-- Claim C5 evidence: the shipped `generate_annual_profile` iterates a fixed
hourly grid, 365 days times the 24 integer hours, with no time-step
parameter. -/
theorem claim5_hourly_grid :
    profileGrid.length = 365 * 24 ∧
    ∀ d h : ℕ, (d, h) ∈ profileGrid ↔ 1 ≤ d ∧ d ≤ 365 ∧ h < 24 := by
  constructor
  · rw [profileGrid, List.length_flatMap]
    simp only [Function.comp_def, List.length_map, List.length_range]
    rw [List.map_const', List.sum_replicate, List.length_range]
    norm_num
  · intro d h
    simp only [profileGrid, List.mem_flatMap, List.mem_map, List.mem_range,
      Prod.mk.injEq]
    constructor
    · rintro ⟨a, ha, b, hb, h1, h2⟩
      omega
    · rintro ⟨h1, h2, h3⟩
      exact ⟨d - 1, by omega, h, h3, by omega, rfl⟩

/-! ## Claim 2 amended part: the clamped incidence cosine never exceeds 1 -/

/-- Claim C2 amended: for arbitrary sun position, panel orientation and
irradiance inputs, the clamped incidence cosine returned by
`calculate_incident_irradiance` never exceeds the 2-Axis value 1, so the beam
component never exceeds the DNI; the blanket instantaneous dominance of the
2-Axis total incident irradiance is refuted separately. -/
theorem claim2_amended (beta phi_s sigma phi_c Ib C rho : ℝ) :
    (calculate_incident_irradiance beta phi_s sigma phi_c Ib C rho).2 ≤ 1 ∧
    (0 ≤ Ib →
      Ib * (calculate_incident_irradiance beta phi_s sigma phi_c Ib C rho).2 ≤ Ib) := by
  have key : (calculate_incident_irradiance beta phi_s sigma phi_c Ib C rho).2 ≤ 1 := by
    unfold calculate_incident_irradiance
    dsimp only
    apply max_le (by norm_num)
    set a := Real.cos (np_radians beta) with ha
    set b := Real.sin (np_radians beta) with hb
    set u := Real.cos (np_radians phi_s - np_radians phi_c) with hu
    set c := Real.sin (np_radians sigma) with hc
    set d := Real.cos (np_radians sigma) with hd
    have h1 : b ^ 2 + a ^ 2 = 1 := Real.sin_sq_add_cos_sq _
    have h2 : c ^ 2 + d ^ 2 = 1 := Real.sin_sq_add_cos_sq _
    have h3 : u ^ 2 ≤ 1 := Real.cos_sq_le_one _
    have hx2 : (a * u * c + b * d) ^ 2 ≤ 1 := by
      nlinarith [sq_nonneg (a * d - b * u * c), sq_nonneg c,
        mul_nonneg (sq_nonneg c) (sub_nonneg.mpr h3)]
    nlinarith [sq_nonneg (a * u * c + b * d + 1)]
  refine ⟨key, fun hIb => ?_⟩
  calc Ib * (calculate_incident_irradiance beta phi_s sigma phi_c Ib C rho).2 ≤ Ib * 1 :=
        mul_le_mul_of_nonneg_left key hIb
    _ = Ib := mul_one _

/-- Witness for the amended claim C2 with DNI 2. -/
theorem claim2_amended_witness :
    (0 : ℝ) ≤ 2 ∧ 2 * (calculate_incident_irradiance 10 20 30 40 2 0.1 0.2).2 ≤ 2 :=
  ⟨by norm_num, (claim2_amended 10 20 30 40 2 0.1 0.2).2 (by norm_num)⟩

/-! ## Claim 6: optimal tilt search -/

lemma bestFold_spec (f : ℤ → ℝ) (l : List ℤ) : ∀ (b0 : ℤ) (m0 : ℝ),
    m0 ≤ (bestFold f l (b0, m0)).2 ∧
    (∀ t ∈ l, f t ≤ (bestFold f l (b0, m0)).2) ∧
    ((bestFold f l (b0, m0)).1 = b0 ∧ (bestFold f l (b0, m0)).2 = m0 ∨
      ((bestFold f l (b0, m0)).1 ∈ l ∧
        f (bestFold f l (b0, m0)).1 = (bestFold f l (b0, m0)).2)) := by
  induction l with
  | nil =>
    intro b0 m0
    refine ⟨le_rfl, ?_, Or.inl ⟨rfl, rfl⟩⟩
    intro t ht
    exact absurd ht (List.not_mem_nil t)
  | cons a l ih =>
    intro b0 m0
    have hstep : bestFold f (a :: l) (b0, m0) =
        bestFold f l (if f a > m0 then (a, f a) else (b0, m0)) := by
      unfold bestFold
      rw [List.foldl_cons]
    by_cases h : f a > m0
    · rw [hstep, if_pos h]
      obtain ⟨h1, h2, h3⟩ := ih a (f a)
      refine ⟨by linarith, ?_, ?_⟩
      · intro t ht
        rcases List.mem_cons.mp ht with rfl | ht'
        · exact h1
        · exact h2 t ht'
      · rcases h3 with ⟨ha1, ha2⟩ | ⟨hm, hv⟩
        · exact Or.inr ⟨by rw [ha1]; exact List.mem_cons_self a l, by rw [ha1, ha2]⟩
        · exact Or.inr ⟨List.mem_cons_of_mem a hm, hv⟩
    · rw [hstep, if_neg h]
      obtain ⟨h1, h2, h3⟩ := ih b0 m0
      refine ⟨h1, ?_, ?_⟩
      · intro t ht
        rcases List.mem_cons.mp ht with rfl | ht'
        · push_neg at h
          linarith
        · exact h2 t ht'
      · rcases h3 with hL | ⟨hm, hv⟩
        · exact Or.inl hL
        · exact Or.inr ⟨List.mem_cons_of_mem a hm, hv⟩

lemma mem_tiltCandidates (lat : ℝ) (t : ℤ) :
    t ∈ tiltCandidates lat ↔ max 0 (⌊|lat|⌋ - 5) ≤ t ∧ t ≤ ⌊|lat|⌋ + 5 := by
  have hfl : (0 : ℤ) ≤ ⌊|lat|⌋ := Int.floor_nonneg.mpr (abs_nonneg lat)
  simp only [tiltCandidates, List.mem_map, List.mem_range]
  rcases le_total (⌊|lat|⌋ - 5) 0 with hc | hc
  · rw [max_eq_left hc]
    constructor
    · rintro ⟨i, hi, rfl⟩
      omega
    · rintro ⟨h1, h2⟩
      exact ⟨t.toNat, by omega, by omega⟩
  · rw [max_eq_right hc]
    constructor
    · rintro ⟨i, hi, rfl⟩
      omega
    · rintro ⟨h1, h2⟩
      exact ⟨(t - (⌊|lat|⌋ - 5)).toNat, by omega, by omega⟩

lemma floor_abs_32_5 : ⌊|(32.5 : ℝ)|⌋ = 32 := by
  rw [show |(32.5 : ℝ)| = 32.5 by norm_num, Int.floor_eq_iff]
  norm_num

/-- Counterexample to claim C6 as stated: at latitude 32.5 the swept candidate
set contains tilt 27, which lies strictly below |lat| - 5 = 27.5, because the
source truncates `abs(latitude)` with `int(...)` before building the range. -/
theorem claim6_counterexample :
    (27 : ℤ) ∈ tiltCandidates (32.5 : ℝ) ∧ ((27 : ℤ) : ℝ) < |(32.5 : ℝ)| - 5 := by
  constructor
  · rw [mem_tiltCandidates, floor_abs_32_5]
    constructor <;> decide
  · rw [show |(32.5 : ℝ)| = 32.5 by norm_num]
    push_cast
    norm_num

/-- Claim C6 amended: the sweep is over the integer candidates from
`max 0 (floor |lat| - 5)` to `floor |lat| + 5` (which is [max 0 (|lat|-5),
|lat|+5] only when |lat| is an integer); the reported yield is always the
annual electrical yield at the returned tilt; every candidate value is at most
the selected maximum; and when the maximum is positive the returned tilt is a
candidate attaining it. -/
theorem claim6_amended (lat lon eff : ℝ) (flag : Bool) :
    (∀ t : ℤ, t ∈ tiltCandidates lat ↔
      max 0 (⌊|lat|⌋ - 5) ≤ t ∧ t ≤ ⌊|lat|⌋ + 5) ∧
    (calculate_optimal_tilt lat lon eff flag).2 =
      elec_yield lat eff (daylightData lat lon)
        (((calculate_optimal_tilt lat lon eff flag).1 : ℤ) : ℝ) ∧
    (∀ t ∈ tiltCandidates lat,
      sel_value lat eff flag (daylightData lat lon) (t : ℝ) ≤
        (optimalTiltFold lat eff flag (daylightData lat lon)).2) ∧
    (0 < (optimalTiltFold lat eff flag (daylightData lat lon)).2 →
      (optimalTiltFold lat eff flag (daylightData lat lon)).1 ∈ tiltCandidates lat ∧
      sel_value lat eff flag (daylightData lat lon)
        (((optimalTiltFold lat eff flag (daylightData lat lon)).1 : ℤ) : ℝ) =
        (optimalTiltFold lat eff flag (daylightData lat lon)).2) := by
  obtain ⟨h1, h2, h3⟩ := bestFold_spec
    (fun t => sel_value lat eff flag (daylightData lat lon) (t : ℝ))
    (tiltCandidates lat) 0 0
  refine ⟨mem_tiltCandidates lat, rfl, ?_, ?_⟩
  · intro t ht
    exact h2 t ht
  · intro hpos
    rcases h3 with ⟨_, hz⟩ | ⟨hm, hv⟩
    · rw [optimalTiltFold] at hpos
      rw [hz] at hpos
      exact absurd hpos (lt_irrefl 0)
    · exact ⟨hm, hv⟩

/-- Witness for the amended claim C6: candidate 27 at latitude 32.5 is bounded
by the selected maximum. -/
theorem claim6_amended_witness :
    (27 : ℤ) ∈ tiltCandidates (32.5 : ℝ) ∧
    sel_value 32.5 0.2 false (daylightData 32.5 0) ((27 : ℤ) : ℝ) ≤
      (optimalTiltFold 32.5 0.2 false (daylightData 32.5 0)).2 := by
  have hm : (27 : ℤ) ∈ tiltCandidates (32.5 : ℝ) := by
    rw [mem_tiltCandidates, floor_abs_32_5]
    constructor <;> decide
  exact ⟨hm, (claim6_amended 32.5 0 0.2 false).2.2.1 27 hm⟩

/-- Witness for claim C10 at day 100, elevation 90. -/
theorem claim10_airmass_dni_witness :
    (0 : ℝ) < 90 ∧
    (1 ≤ (calculate_irradiance 100 90).air_mass ∧
      (calculate_irradiance 100 90).air_mass ≤ 100 ∧
      0 < (calculate_irradiance 100 90).dni ∧
      (calculate_irradiance 100 90).dni < (calculate_irradiance 100 90).extraterrestrial ∧
      (calculate_irradiance 100 90).extraterrestrial ≤ 1235 ∧
      (calculate_irradiance 100 90).dni < 1235) :=
  ⟨by norm_num, claim10_airmass_dni 100 90 (by norm_num)⟩

/-! ## Quartic Taylor bounds used for concrete trigonometric values -/

lemma sin_taylor_lb {x a b : ℝ} (h1 : a ≤ x) (h2 : x ≤ b) (h0 : 0 ≤ a) (hb : b ≤ 1) :
    a - a ^ 3 / 6 - b ^ 4 * (5 / 96) ≤ Real.sin x := by
  have hx : |x| ≤ 1 := abs_le.mpr ⟨by linarith, by linarith⟩
  have h := abs_le.mp (Real.sin_bound hx)
  have hxa : |x| = x := abs_of_nonneg (by linarith)
  have hx4 : |x| ^ 4 ≤ b ^ 4 := by
    rw [hxa]
    exact pow_le_pow_left (by linarith) h2 4
  have hin : 0 ≤ 6 - (x ^ 2 + a * x + a ^ 2) := by
    nlinarith [mul_nonneg (by linarith : (0:ℝ) ≤ 1 - x) (by linarith : (0:ℝ) ≤ 1 + x),
      mul_nonneg (by linarith : (0:ℝ) ≤ 1 - a) (by linarith : (0:ℝ) ≤ 1 + a),
      mul_nonneg (by linarith : (0:ℝ) ≤ 1 - a) (by linarith : (0:ℝ) ≤ x)]
  have hkey : 0 ≤ (x - a) * (6 - (x ^ 2 + a * x + a ^ 2)) :=
    mul_nonneg (by linarith) hin
  have hmono : a - a ^ 3 / 6 ≤ x - x ^ 3 / 6 := by nlinarith [hkey]
  linarith [h.1]

lemma sin_taylor_ub {x a b : ℝ} (h1 : a ≤ x) (h2 : x ≤ b) (h0 : 0 ≤ a) (hb : b ≤ 1) :
    Real.sin x ≤ b - b ^ 3 / 6 + b ^ 4 * (5 / 96) := by
  have hx : |x| ≤ 1 := abs_le.mpr ⟨by linarith, by linarith⟩
  have h := abs_le.mp (Real.sin_bound hx)
  have hxa : |x| = x := abs_of_nonneg (by linarith)
  have hx4 : |x| ^ 4 ≤ b ^ 4 := by
    rw [hxa]
    exact pow_le_pow_left (by linarith) h2 4
  have hin : 0 ≤ 6 - (b ^ 2 + x * b + x ^ 2) := by
    nlinarith [mul_nonneg (by linarith : (0:ℝ) ≤ 1 - x) (by linarith : (0:ℝ) ≤ 1 + x),
      mul_nonneg (by linarith : (0:ℝ) ≤ 1 - b) (by linarith : (0:ℝ) ≤ 1 + b),
      mul_nonneg (by linarith : (0:ℝ) ≤ 1 - x) (by linarith : (0:ℝ) ≤ b)]
  have hkey : 0 ≤ (b - x) * (6 - (b ^ 2 + x * b + x ^ 2)) :=
    mul_nonneg (by linarith) hin
  have hmono : x - x ^ 3 / 6 ≤ b - b ^ 3 / 6 := by nlinarith [hkey]
  linarith [h.2]

lemma cos_taylor_lb {x a b : ℝ} (h1 : a ≤ x) (h2 : x ≤ b) (h0 : 0 ≤ a) (hb : b ≤ 1) :
    1 - b ^ 2 / 2 - b ^ 4 * (5 / 96) ≤ Real.cos x := by
  have hx : |x| ≤ 1 := abs_le.mpr ⟨by linarith, by linarith⟩
  have h := abs_le.mp (Real.cos_bound hx)
  have hxa : |x| = x := abs_of_nonneg (by linarith)
  have hx4 : |x| ^ 4 ≤ b ^ 4 := by
    rw [hxa]
    exact pow_le_pow_left (by linarith) h2 4
  have hsq : x ^ 2 ≤ b ^ 2 := by
    nlinarith [mul_nonneg (by linarith : (0:ℝ) ≤ b - x) (by linarith : (0:ℝ) ≤ b + x)]
  linarith [h.1]

lemma cos_taylor_ub {x a b : ℝ} (h1 : a ≤ x) (h2 : x ≤ b) (h0 : 0 ≤ a) (hb : b ≤ 1) :
    Real.cos x ≤ 1 - a ^ 2 / 2 + b ^ 4 * (5 / 96) := by
  have hx : |x| ≤ 1 := abs_le.mpr ⟨by linarith, by linarith⟩
  have h := abs_le.mp (Real.cos_bound hx)
  have hxa : |x| = x := abs_of_nonneg (by linarith)
  have hx4 : |x| ^ 4 ≤ b ^ 4 := by
    rw [hxa]
    exact pow_le_pow_left (by linarith) h2 4
  have hsq : a ^ 2 ≤ x ^ 2 := by
    nlinarith [mul_nonneg (by linarith : (0:ℝ) ≤ x - a) (by linarith : (0:ℝ) ≤ x + a)]
  linarith [h.2]

lemma sin_pi60_bounds : 0.05233554 ≤ Real.sin (π / 60) ∧ Real.sin (π / 60) ≤ 0.05233636 := by
  have ha : (0.052359866 : ℝ) ≤ π / 60 := by linarith [Real.pi_gt_d6]
  have hb : (π / 60 : ℝ) ≤ 0.052359884 := by linarith [Real.pi_lt_d6]
  constructor
  · have h := sin_taylor_lb ha hb (by norm_num) (by norm_num)
    have hnum : (0.05233554 : ℝ) ≤ 0.052359866 - 0.052359866 ^ 3 / 6 - 0.052359884 ^ 4 * (5 / 96) := by norm_num
    linarith
  · have h := sin_taylor_ub ha hb (by norm_num) (by norm_num)
    have hnum : (0.052359884 : ℝ) - 0.052359884 ^ 3 / 6 + 0.052359884 ^ 4 * (5 / 96) ≤ 0.05233636 := by norm_num
    linarith

lemma cos_pi60_bounds : 0.99862882 ≤ Real.cos (π / 60) ∧ Real.cos (π / 60) ≤ 0.99862962 := by
  have ha : (0.052359866 : ℝ) ≤ π / 60 := by linarith [Real.pi_gt_d6]
  have hb : (π / 60 : ℝ) ≤ 0.052359884 := by linarith [Real.pi_lt_d6]
  constructor
  · have h := cos_taylor_lb ha hb (by norm_num) (by norm_num)
    have hnum : (0.99862882 : ℝ) ≤ 1 - 0.052359884 ^ 2 / 2 - 0.052359884 ^ 4 * (5 / 96) := by norm_num
    linarith
  · have h := cos_taylor_ub ha hb (by norm_num) (by norm_num)
    have hnum : (1 : ℝ) - 0.052359866 ^ 2 / 2 + 0.052359884 ^ 4 * (5 / 96) ≤ 0.99862962 := by norm_num
    linarith

lemma sin_17pi365_bounds : 0.14577473 ≤ Real.sin (17 * π / 365) ∧ Real.sin (17 * π / 365) ≤ 0.14582253 := by
  have ha : (0.146320723 : ℝ) ≤ 17 * π / 365 := by linarith [Real.pi_gt_d6]
  have hb : (17 * π / 365 : ℝ) ≤ 0.14632077 := by linarith [Real.pi_lt_d6]
  constructor
  · have h := sin_taylor_lb ha hb (by norm_num) (by norm_num)
    have hnum : (0.14577473 : ℝ) ≤ 0.146320723 - 0.146320723 ^ 3 / 6 - 0.14632077 ^ 4 * (5 / 96) := by norm_num
    linarith
  · have h := sin_taylor_ub ha hb (by norm_num) (by norm_num)
    have hnum : (0.14632077 : ℝ) - 0.14632077 ^ 3 / 6 + 0.14632077 ^ 4 * (5 / 96) ≤ 0.14582253 := by norm_num
    linarith

lemma sin_4pi91_bounds : 0.13763412 ≤ Real.sin (4 * π / 91) ∧ Real.sin (4 * π / 91) ≤ 0.13767206 := by
  have ha : (0.138091956 : ℝ) ≤ 4 * π / 91 := by linarith [Real.pi_gt_d6]
  have hb : (4 * π / 91 : ℝ) ≤ 0.138092 := by linarith [Real.pi_lt_d6]
  constructor
  · have h := sin_taylor_lb ha hb (by norm_num) (by norm_num)
    have hnum : (0.13763412 : ℝ) ≤ 0.138091956 - 0.138091956 ^ 3 / 6 - 0.138092 ^ 4 * (5 / 96) := by norm_num
    linarith
  · have h := sin_taylor_ub ha hb (by norm_num) (by norm_num)
    have hnum : (0.138092 : ℝ) - 0.138092 ^ 3 / 6 + 0.138092 ^ 4 * (5 / 96) ≤ 0.13767206 := by norm_num
    linarith

lemma cos_4pi91_bounds : 0.99044636 ≤ Real.cos (4 * π / 91) ∧ Real.cos (4 * π / 91) ≤ 0.99048425 := by
  have ha : (0.138091956 : ℝ) ≤ 4 * π / 91 := by linarith [Real.pi_gt_d6]
  have hb : (4 * π / 91 : ℝ) ≤ 0.138092 := by linarith [Real.pi_lt_d6]
  constructor
  · have h := cos_taylor_lb ha hb (by norm_num) (by norm_num)
    have hnum : (0.99044636 : ℝ) ≤ 1 - 0.138092 ^ 2 / 2 - 0.138092 ^ 4 * (5 / 96) := by norm_num
    linarith
  · have h := cos_taylor_ub ha hb (by norm_num) (by norm_num)
    have hnum : (1 : ℝ) - 0.138091956 ^ 2 / 2 + 0.138092 ^ 4 * (5 / 96) ≤ 0.99048425 := by norm_num
    linarith

lemma sin_8pi91_bounds : 0.27236977 ≤ Real.sin (8 * π / 91) ∧ Real.sin (8 * π / 91) ≤ 0.27297593 := by
  have ha : (0.276183912 : ℝ) ≤ 8 * π / 91 := by linarith [Real.pi_gt_d6]
  have hb : (8 * π / 91 : ℝ) ≤ 0.276184 := by linarith [Real.pi_lt_d6]
  constructor
  · have h := sin_taylor_lb ha hb (by norm_num) (by norm_num)
    have hnum : (0.27236977 : ℝ) ≤ 0.276183912 - 0.276183912 ^ 3 / 6 - 0.276184 ^ 4 * (5 / 96) := by norm_num
    linarith
  · have h := sin_taylor_ub ha hb (by norm_num) (by norm_num)
    have hnum : (0.276184 : ℝ) - 0.276184 ^ 3 / 6 + 0.276184 ^ 4 * (5 / 96) ≤ 0.27297593 := by norm_num
    linarith

lemma sin_11pi73_bounds : 0.4530939 ≤ Real.sin (11 * π / 73) ∧ Real.sin (11 * π / 73) ≤ 0.45832532 := by
  have ha : (0.473390575 : ℝ) ≤ 11 * π / 73 := by linarith [Real.pi_gt_d6]
  have hb : (11 * π / 73 : ℝ) ≤ 0.473390727 := by linarith [Real.pi_lt_d6]
  constructor
  · have h := sin_taylor_lb ha hb (by norm_num) (by norm_num)
    have hnum : (0.4530939 : ℝ) ≤ 0.473390575 - 0.473390575 ^ 3 / 6 - 0.473390727 ^ 4 * (5 / 96) := by norm_num
    linarith
  · have h := sin_taylor_ub ha hb (by norm_num) (by norm_num)
    have hnum : (0.473390727 : ℝ) - 0.473390727 ^ 3 / 6 + 0.473390727 ^ 4 * (5 / 96) ≤ 0.45832532 := by norm_num
    linarith

set_option maxHeartbeats 2000000 in
lemma sinBeta87_bounds : 0.0072 ≤ sinBeta87 ∧ sinBeta87 ≤ 0.0074 := by
  obtain ⟨hq1, hq2⟩ := sin_pi60_bounds
  obtain ⟨hp1, hp2⟩ := cos_pi60_bounds
  obtain ⟨hv1, hv2⟩ := sin_17pi365_bounds
  obtain ⟨hs41, hs42⟩ := sin_4pi91_bounds
  obtain ⟨hc41, hc42⟩ := cos_4pi91_bounds
  obtain ⟨hs81, hs82⟩ := sin_8pi91_bounds
  have hπ1 := Real.pi_gt_d6
  have hπ2 := Real.pi_lt_d6
  have hm : local_time_meridian 0 = 0 := by
    unfold local_time_meridian
    norm_num
  unfold sinBeta87
  rw [hm]
  rw [show 2 * (2 * π / 364 * ((255 : ℝ) - 81)) = -(8 * π / 91) + 2 * π by ring,
    Real.sin_add_two_pi, Real.sin_neg]
  rw [show 2 * π / 364 * ((255 : ℝ) - 81) = π - 4 * π / 91 by ring,
    Real.cos_pi_sub, Real.sin_pi_sub]
  rw [show 2 * π / 365 * ((255 : ℝ) - 81) = π - 17 * π / 365 by ring, Real.sin_pi_sub]
  unfold np_radians
  rw [show (87 : ℝ) * (π / 180) = π / 2 - π / 60 by ring,
    Real.cos_pi_div_two_sub, Real.sin_pi_div_two_sub]
  set s8 := Real.sin (8 * π / 91) with hs8def
  set c4 := Real.cos (4 * π / 91) with hc4def
  set s4 := Real.sin (4 * π / 91) with hs4def
  set v := Real.sin (17 * π / 365) with hvdef
  set q := Real.sin (π / 60) with hqdef
  set p := Real.cos (π / 60) with hpdef
  rw [show (15 * ((12 : ℝ) - (0 + (4 * (0 - 0) +
      (9.87 * -s8 - 7.53 * -c4 - 1.5 * s4)) / 60))) * (π / 180) =
      π - (9.87 * -s8 - 7.53 * -c4 - 1.5 * s4) * (π / 720) by ring, Real.cos_pi_sub]
  set w := (9.87 * -s8 - 7.53 * -c4 - 1.5 * s4) * (π / 720) with hwdef
  have hE1 : (4.5572805 : ℝ) ≤ 9.87 * -s8 - 7.53 * -c4 - 1.5 * s4 := by linarith
  have hE2 : 9.87 * -s8 - 7.53 * -c4 - 1.5 * s4 ≤ 4.5636056 := by linarith
  have hw1 : (0.019884883 : ℝ) ≤ w := by
    rw [hwdef]
    nlinarith
  have hw2 : w ≤ 0.019912489 := by
    rw [hwdef]
    nlinarith
  have hcw1 : (0.99980173 : ℝ) ≤ Real.cos w := by
    have h := cos_taylor_lb hw1 hw2 (by norm_num) (by norm_num)
    have hnum : (0.99980173 : ℝ) ≤
        1 - 0.019912489 ^ 2 / 2 - 0.019912489 ^ 4 * (5 / 96) := by norm_num
    linarith
  have hcw2 : Real.cos w ≤ 1 := Real.cos_le_one _
  set d := 23.45 * v * (π / 180) with hddef
  have hd1 : (0.059662626 : ℝ) ≤ d := by
    rw [hddef]
    nlinarith
  have hd2 : d ≤ 0.05968221 := by
    rw [hddef]
    nlinarith
  have hsd1 : (0.05962656 : ℝ) ≤ Real.sin d := by
    have h := sin_taylor_lb hd1 hd2 (by norm_num) (by norm_num)
    have hnum : (0.05962656 : ℝ) ≤
        0.059662626 - 0.059662626 ^ 3 / 6 - 0.05968221 ^ 4 * (5 / 96) := by norm_num
    linarith
  have hsd2 : Real.sin d ≤ 0.05964744 := by
    have h := sin_taylor_ub hd1 hd2 (by norm_num) (by norm_num)
    have hnum : (0.05968221 : ℝ) - 0.05968221 ^ 3 / 6 + 0.05968221 ^ 4 * (5 / 96) ≤
        0.05964744 := by norm_num
    linarith
  have hcd1 : (0.99821835 : ℝ) ≤ Real.cos d := by
    have h := cos_taylor_lb hd1 hd2 (by norm_num) (by norm_num)
    have hnum : (0.99821835 : ℝ) ≤
        1 - 0.05968221 ^ 2 / 2 - 0.05968221 ^ 4 * (5 / 96) := by norm_num
    linarith
  have hcd2 : Real.cos d ≤ 0.99822085 := by
    have h := cos_taylor_ub hd1 hd2 (by norm_num) (by norm_num)
    have hnum : (1 : ℝ) - 0.059662626 ^ 2 / 2 + 0.05968221 ^ 4 * (5 / 96) ≤
        0.99822085 := by norm_num
    linarith
  have hprod1 : (0.99802043 : ℝ) ≤ Real.cos d * Real.cos w := by nlinarith
  have hprod2 : Real.cos d * Real.cos w ≤ 0.99822085 := by nlinarith
  have ht1 : (0.05223193 : ℝ) ≤ q * (Real.cos d * Real.cos w) := by nlinarith
  have ht2 : q * (Real.cos d * Real.cos w) ≤ 0.05224326 := by nlinarith
  have hu1 : (0.0595448 : ℝ) ≤ p * Real.sin d := by nlinarith
  have hu2 : p * Real.sin d ≤ 0.05956571 := by nlinarith
  constructor
  · nlinarith
  · nlinarith

set_option maxHeartbeats 2000000 in
/-- Counterexample to claim C2 as stated: at latitude 87, longitude 0, day
255, hour 0 (a midnight-sun profile step with elevation about 0.42 degrees),
the 1-Axis Azimuth incident irradiance exceeds the 2-Axis incident
irradiance: with panel tilt 87 and elevation beta, cos theta is close to 1
while the tilted panel keeps a larger diffuse share, and the diffuse and
ground-reflected excess outweighs the missing beam. -/
theorem claim2_counterexample :
    0 < (calculate_geometry 87 0 255 0).elevation ∧
    step2AxisIc 87 0 255 0 < step1AxisAzIc 87 0 none 255 0 := by
  have hSb := sinBeta87_bounds
  have hπpos := Real.pi_pos
  have hgeom0 : (calculate_geometry 87 0 255 0).elevation =
      np_degrees (Real.arcsin (np_clip sinBeta87 (-1) 1)) := rfl
  have hclip : np_clip sinBeta87 (-1) 1 = sinBeta87 :=
    np_clip_of_mem (by linarith [hSb.1]) (by linarith [hSb.2])
  have hgeom : (calculate_geometry 87 0 255 0).elevation =
      np_degrees (Real.arcsin sinBeta87) := by rw [hgeom0, hclip]
  have harc : 0 < Real.arcsin sinBeta87 := Real.arcsin_pos.mpr (by linarith [hSb.1])
  have hel : 0 < (calculate_geometry 87 0 255 0).elevation := by
    rw [hgeom]
    unfold np_degrees
    exact mul_pos harc (by positivity)
  refine ⟨hel, ?_⟩
  have helb : ¬(np_degrees (Real.arcsin sinBeta87) ≤ 0) := by
    rw [← hgeom]
    exact not_le.mpr hel
  unfold step1AxisAzIc step2AxisIc calculate_irradiance calculate_incident_irradiance
  dsimp only
  rw [hgeom]
  rw [if_neg helb]
  dsimp only
  rw [np_radians_np_degrees]
  rw [Real.sin_arcsin (by linarith [hSb.1]) (by linarith [hSb.2])]
  rw [if_pos (by linarith [hSb.2] : sinBeta87 < 0.01)]
  rw [Real.cos_arcsin]
  simp only [Option.getD_none]
  rw [show |(87 : ℝ)| = 87 by norm_num]
  have hsig1 : Real.sin (np_radians 87) = Real.cos (π / 60) := by
    unfold np_radians
    rw [show (87 : ℝ) * (π / 180) = π / 2 - π / 60 by ring, Real.sin_pi_div_two_sub]
  have hsig2 : Real.cos (np_radians 87) = Real.sin (π / 60) := by
    unfold np_radians
    rw [show (87 : ℝ) * (π / 180) = π / 2 - π / 60 by ring, Real.cos_pi_div_two_sub]
  rw [hsig1, hsig2, sub_self, Real.cos_zero]
  have hCeq : Real.sin (2 * π / 365 * ((255 : ℝ) - 100)) = Real.sin (11 * π / 73) := by
    rw [show 2 * π / 365 * ((255 : ℝ) - 100) = π - 11 * π / 73 by ring, Real.sin_pi_sub]
  rw [hCeq]
  obtain ⟨hq1, hq2⟩ := sin_pi60_bounds
  obtain ⟨hp1, hp2⟩ := cos_pi60_bounds
  obtain ⟨hc1, hc2⟩ := sin_11pi73_bounds
  obtain ⟨hS1, hS2⟩ := hSb
  set c11 := Real.sin (11 * π / 73) with hc11def
  set q := Real.sin (π / 60) with hqdef
  set p := Real.cos (π / 60) with hpdef
  set S := sinBeta87 with hSdef
  set r := Real.sqrt (1 - S ^ 2) with hrdef
  set A := 1160 + 75 * Real.sin (2 * π / 365 * ((255 : ℝ) - 275)) with hAdef
  set Ib := A * Real.exp (-(0.174 + 0.035 * c11) * (1 / 0.01)) with hIbdef
  have hA : 0 < A := by
    rw [hAdef]
    nlinarith [Real.neg_one_le_sin (2 * π / 365 * ((255 : ℝ) - 275))]
  have hIb : 0 < Ib := by
    rw [hIbdef]
    exact mul_pos hA (Real.exp_pos _)
  have hr1 : (0.999972 : ℝ) ≤ r := by
    rw [hrdef]
    apply Real.le_sqrt_of_sq_le
    nlinarith [mul_nonneg (by linarith : (0 : ℝ) ≤ 0.0074 - S)
      (by linarith : (0 : ℝ) ≤ 0.0074 + S)]
  have hr2 : r ≤ 1 := by
    rw [hrdef]
    calc Real.sqrt (1 - S ^ 2) ≤ Real.sqrt 1 := Real.sqrt_le_sqrt (by nlinarith [sq_nonneg S])
      _ = 1 := Real.sqrt_one
  set CF := 0.095 + 0.04 * c11 with hCFdef
  clear_value c11 q p S r A Ib CF
  have hCF1 : (0.1131237 : ℝ) ≤ CF := by
    rw [hCFdef]
    linarith
  have hCF2 : CF ≤ 0.1133331 := by
    rw [hCFdef]
    linarith
  have hrp : (0.9986008 : ℝ) ≤ r * p := by
    calc (0.9986008 : ℝ) ≤ 0.999972 * 0.99862882 := by norm_num
      _ ≤ r * p := mul_le_mul hr1 hp1 (by norm_num) (by linarith)
  have hSq1 : (0.00037681 : ℝ) ≤ S * q := by
    calc (0.00037681 : ℝ) ≤ 0.0072 * 0.05233554 := by norm_num
      _ ≤ S * q := mul_le_mul hS1 hq1 (by norm_num) (by linarith)
  have hSq2 : S * q ≤ 0.00038729 := by
    calc S * q ≤ 0.0074 * 0.05233636 := mul_le_mul hS2 hq2 (by linarith) (by norm_num)
      _ ≤ 0.00038729 := by norm_num
  have hCFq1 : (0.00592038 : ℝ) ≤ CF * q := by
    calc (0.00592038 : ℝ) ≤ 0.1131237 * 0.05233554 := by norm_num
      _ ≤ CF * q := mul_le_mul hCF1 hq1 (by norm_num) (by linarith)
  have hCFq2 : CF * q ≤ 0.00593145 := by
    calc CF * q ≤ 0.1133331 * 0.05233636 := mul_le_mul hCF2 hq2 (by linarith) (by norm_num)
      _ ≤ 0.00593145 := by norm_num
  have hCFS1 : (0.00081449 : ℝ) ≤ CF * S := by
    calc (0.00081449 : ℝ) ≤ 0.1131237 * 0.0072 := by norm_num
      _ ≤ CF * S := mul_le_mul hCF1 hS1 (by norm_num) (by linarith)
  have hCFS2 : CF * S ≤ 0.00083867 := by
    calc CF * S ≤ 0.1133331 * 0.0074 := mul_le_mul hCF2 hS2 (by linarith) (by norm_num)
      _ ≤ 0.00083867 := by norm_num
  have hS2a : (0.00005184 : ℝ) ≤ S ^ 2 := by
    calc (0.00005184 : ℝ) ≤ 0.0072 * 0.0072 := by norm_num
      _ ≤ S * S := mul_le_mul hS1 hS1 (by norm_num) (by linarith)
      _ = S ^ 2 := by ring
  have hS2b : S ^ 2 ≤ 0.00005476 := by
    calc S ^ 2 = S * S := by ring
      _ ≤ 0.0074 * 0.0074 := mul_le_mul hS2 hS2 (by linarith) (by norm_num)
      _ ≤ 0.00005476 := by norm_num
  have hbr : 1 + CF * (1 + S) / 2 + 0.2 * (S + CF) * (1 - S) / 2 <
      (r * 1 * p + S * q) + CF * (1 + q) / 2 + 0.2 * (S + CF) * (1 - q) / 2 := by
    linarith only [hrp, hSq1, hSq2, hCFq1, hCFq2, hCFS1, hCFS2, hS2a, hS2b]
  have hmax : Ib * (r * 1 * p + S * q) ≤ Ib * (0 ⊔ (r * 1 * p + S * q)) :=
    mul_le_mul_of_nonneg_left (le_max_right _ _) hIb.le
  have hkey : 0 < Ib * ((r * 1 * p + S * q) + CF * (1 + q) / 2 +
      0.2 * (S + CF) * (1 - q) / 2 -
      (1 + CF * (1 + S) / 2 + 0.2 * (S + CF) * (1 - S) / 2)) :=
    mul_pos hIb (by linarith only [hbr])
  linarith only [hkey, hmax]
